import Mathlib

/-!
Verification of the semantic indexing and retrieval subsystem of the
scopus_chatbot project (src/semantic_indexer.py and src/chatbot_interface.py).

Embedding choices:
* vectors are lists of rationals; scores live in `WithBot ℚ` so that the
  sentinel similarity FAISS reports for padded slots (labelled `-1`) is `⊥`;
* the SentenceTransformer encoder is an opaque parameter `encode`, and the
  in-place `faiss.normalize_L2` applied to rational pipelines is an opaque
  parameter `normalize`/`qnorm`; the real-valued meaning of `normalize_L2` is
  developed separately over `ℝ` at the end of the definition section;
* Python list indexing (negative indices wrap from the end, out-of-range
  raises) is `pythonGet`, returning `none` for the raising case;
* a raised exception inside the retriever's `try` block is `Except.error ()`.
-/

/-- One row of the `articles` table, as selected by
`load_articles_from_database` / `load_articles_data`.  Nullable text columns
are `Option String` (`none` is SQL NULL, i.e. `pd.notna` fails). -/
structure Article where
  id : ℤ
  scopus_id : String
  title : Option String
  abstract : Option String
  keywords : Option String
  subject_areas : Option String
  year : Option ℤ
  publication_name : Option String
  citation_count : ℤ
  deriving DecidableEq

/-- `pd.notna(row[f]) and row[f]`: the field is present and truthy
(a non-empty string). -/
def hasValue (o : Option String) : Bool :=
  match o with
  | some s => !(s.isEmpty)
  | none => false

/-- `SemanticIndexer.prepare_text_for_embedding` (semantic_indexer.py,
lines 88-114): append a labelled segment for each present, non-empty field in
the order title, abstract, keywords, subject areas, then join with a single
space. -/
def prepare_text_for_embedding (row : Article) : String :=
  let text_parts : List String := []
  let text_parts :=
    if hasValue row.title then text_parts ++ [("Title: ") ++ row.title.getD ("")]
    else text_parts
  let text_parts :=
    if hasValue row.abstract then text_parts ++ [("Abstract: ") ++ row.abstract.getD ("")]
    else text_parts
  let text_parts :=
    if hasValue row.keywords then text_parts ++ [("Keywords: ") ++ row.keywords.getD ("")]
    else text_parts
  let text_parts :=
    if hasValue row.subject_areas then text_parts ++ [("Subject: ") ++ row.subject_areas.getD ("")]
    else text_parts
  String.intercalate (" ") text_parts

/-- Spec-side characterisation of the Text Compositor (spec §4.1): one
labelled segment per non-empty field, nothing for an absent or empty field. -/
def labeledField (label : String) (o : Option String) : List String :=
  match o with
  | some s => if s.isEmpty then [] else [label ++ s]
  | none => []

/-- Spec-side compositor: the non-empty fields in fixed priority order, each
prefixed with its label, joined by single spaces. -/
def composeSpec (row : Article) : String :=
  String.intercalate (" ")
    (labeledField ("Title: ") row.title ++ labeledField ("Abstract: ") row.abstract ++
      labeledField ("Keywords: ") row.keywords ++ labeledField ("Subject: ") row.subject_areas)

/-- Ordering used by `ORDER BY a.id` in `load_articles_from_database`. -/
def articleLe (a b : Article) : Prop := a.id ≤ b.id

instance : DecidableRel articleLe := fun a b => by
  unfold articleLe; infer_instance

instance : IsTotal Article articleLe := ⟨fun a b => le_total a.id b.id⟩

instance : IsTrans Article articleLe := ⟨fun _ _ _ h h' => le_trans h h'⟩

/-- `SemanticIndexer.load_articles_from_database` (semantic_indexer.py,
lines 51-86): `SELECT ... FROM articles a ORDER BY a.id`.  The underlying
table rows come in an arbitrary order; the query returns them sorted by
ascending internal identifier. -/
def load_articles_from_database (table : List Article) : List Article :=
  List.insertionSort articleLe table

/-- `SemanticIndexer.create_embeddings` (semantic_indexer.py, lines 116-147):
compose every row's text and batch-encode; per the Embedder contract batch
encoding equals per-text encoding, so this is a map. -/
def create_embeddings (encode : String → List ℚ) (df : List Article) : List (List ℚ) :=
  df.map (fun row => encode (prepare_text_for_embedding row))

/-- The built FAISS index together with the parallel `article_ids` mapping
(`self.faiss_index` and `self.article_ids`). -/
structure IndexState where
  xb : List (List ℚ)
  article_ids : List ℤ

/-- `faiss_index.ntotal`: number of stored vectors. -/
def indexSize (st : IndexState) : ℕ := st.xb.length

/-- `SemanticIndexer.create_faiss_index` (semantic_indexer.py, lines
149-188): L2-normalize every embedding (`faiss.normalize_L2`, modelled by the
opaque row-wise `normalize`), add them in row order to a fresh
`IndexFlatIP`, and set `article_ids = df['id'].tolist()`. -/
def create_faiss_index (normalize : List ℚ → List ℚ) (embeddings : List (List ℚ))
    (df : List Article) : IndexState :=
  { xb := embeddings.map normalize, article_ids := df.map (fun a => a.id) }

/-- `SemanticIndexer.process_complete_indexing` (semantic_indexer.py, lines
318-371): load articles; if the record set is empty, print an error and
return `False` (here `none`) without building any index; otherwise build
embeddings and the FAISS index and return success with the built state. -/
def process_complete_indexing (encode : String → List ℚ) (normalize : List ℚ → List ℚ)
    (table : List Article) : Option IndexState :=
  let df := load_articles_from_database table
  if df.length = 0 then none
  else some (create_faiss_index normalize (create_embeddings encode df) df)

/-- Inner product of two stored vectors (`IndexFlatIP` similarity). -/
def dot (u v : List ℚ) : ℚ := (List.zipWith (fun a b => a * b) u v).sum

/-- Each stored vector paired with its similarity to the query and its
position. -/
def scored (xb : List (List ℚ)) (q : List ℚ) : List (WithBot ℚ × ℤ) :=
  xb.enum.map (fun p => (((dot q p.2 : ℚ) : WithBot ℚ), (p.1 : ℤ)))

/-- Exact-search result ordering of `IndexFlatIP`: descending similarity,
ties by ascending position. -/
def hitRel (a b : WithBot ℚ × ℤ) : Prop :=
  b.1 < a.1 ∨ (a.1 = b.1 ∧ a.2 ≤ b.2)

instance : DecidableRel hitRel := fun a b => by
  unfold hitRel; infer_instance

instance : IsTotal (WithBot ℚ × ℤ) hitRel := by
  constructor
  intro a b
  rcases lt_trichotomy a.1 b.1 with h | h | h
  · exact Or.inr (Or.inl h)
  · rcases le_total a.2 b.2 with h2 | h2
    · exact Or.inl (Or.inr ⟨h, h2⟩)
    · exact Or.inr (Or.inr ⟨h.symm, h2⟩)
  · exact Or.inl (Or.inl h)

instance : IsTrans (WithBot ℚ × ℤ) hitRel := by
  constructor
  intro a b c hab hbc
  rcases hab with h1 | ⟨e1, l1⟩
  · rcases hbc with h2 | ⟨e2, _⟩
    · exact Or.inl (lt_trans h2 h1)
    · exact Or.inl (e2 ▸ h1)
  · rcases hbc with h2 | ⟨e2, l2⟩
    · exact Or.inl (e1 ▸ h2)
    · exact Or.inr ⟨e1.trans e2, le_trans l1 l2⟩

/-- `faiss_index.search(query, k)` for an `IndexFlatIP` holding `xb`:
the `min k ntotal` best (score, position) pairs in descending-score order,
padded to exactly `k` entries with label `-1` and sentinel similarity `⊥`
when `k` exceeds `ntotal` (documented FAISS behaviour: "if there are not
enough results, the label array is padded with -1s"). -/
def faissSearch (xb : List (List ℚ)) (q : List ℚ) (k : ℕ) : List (WithBot ℚ × ℤ) :=
  let hits := List.insertionSort hitRel (scored xb q)
  hits.take k ++ List.replicate (k - hits.length) ((⊥ : WithBot ℚ), (-1 : ℤ))

/-- Python list subscription `xs[i]`: non-negative indices address from the
front, indices in `[-len, -1]` address from the back, anything else raises
`IndexError` (`none`). -/
def pythonGet {α : Type} (xs : List α) (i : ℤ) : Option α :=
  if 0 ≤ i then xs.get? i.toNat
  else if 0 ≤ (xs.length : ℤ) + i then xs.get? ((xs.length : ℤ) + i).toNat
  else none

/-- The result-assembly loop of `ScopusChatbot.semantic_search`
(chatbot_interface.py, lines 190-202): for each `(score, idx)` pair, if
`idx < len(article_ids)` resolve `article_ids[idx]` (which may raise, ending
the whole call in the `except` handler), look the id up in `articles_df`, and
append the hit only when a row was found. -/
def collectResults (ids : List ℤ) (df : List Article) :
    List (WithBot ℚ × ℤ) → Except Unit (List (WithBot ℚ × Article))
  | [] => Except.ok []
  | (score, idx) :: rest =>
    if idx < (ids.length : ℤ) then
      match pythonGet ids idx with
      | none => Except.error ()
      | some aid =>
        match collectResults ids df rest with
        | Except.error e => Except.error e
        | Except.ok tail =>
          match df.find? (fun a => a.id == aid) with
          | none => Except.ok tail
          | some art => Except.ok ((score, art) :: tail)
    else collectResults ids df rest

/-- Python `str.strip()` with no argument: remove leading and trailing
whitespace characters. -/
def pyStrip (s : String) : String :=
  ⟨((s.data.dropWhile Char.isWhitespace).reverse.dropWhile Char.isWhitespace).reverse⟩

/-- The loaded `ScopusChatbot` state: FAISS vectors, the id mapping, the
cached `articles_df`, the opaque SentenceTransformer `encode`, and the opaque
rational counterpart `qnorm` of `faiss.normalize_L2` applied to the query. -/
structure Chatbot where
  xb : List (List ℚ)
  article_ids : List ℤ
  articles_df : List Article
  encode : String → List ℚ
  qnorm : List ℚ → List ℚ

/-- `ScopusChatbot.semantic_search` (chatbot_interface.py, lines 176-205):
empty or whitespace-only queries return `[]` immediately; otherwise encode
and normalize the query, search the index for `k` hits, assemble results, and
catch any raised exception by returning `[]`. -/
def semantic_search (bot : Chatbot) (query : String) (k : ℕ) :
    List (WithBot ℚ × Article) :=
  if pyStrip query = ("") then []
  else
    match collectResults bot.article_ids bot.articles_df
        (faissSearch bot.xb (bot.qnorm (bot.encode query)) k) with
    | Except.ok rs => rs
    | Except.error _ => []

/-- Persisted FAISS index file contents. -/
structure PersistedIndex where
  xb : List (List ℚ)

/-- `faiss_metadata.pkl` contents written by `create_faiss_index`
(semantic_indexer.py, lines 179-186). -/
structure FaissMetadata where
  article_ids : List ℤ
  model_name : String
  dimension : ℕ

/-- The model identifier both pipeline stages configure
(`self.model_name = 'all-MiniLM-L6-v2'`, chatbot_interface.py line 100). -/
def chatbot_model_name : String := "all-MiniLM-L6-v2"

/-- `ScopusChatbot.load_faiss_index` (chatbot_interface.py, lines 120-136):
if both files exist, read the index and return it with
`metadata['article_ids']`; otherwise return `(None, [])`.  No other metadata
field is consulted. -/
def load_faiss_index (stored : Option (PersistedIndex × FaissMetadata)) :
    Option PersistedIndex × List ℤ :=
  match stored with
  | some (idx, md) => (some idx, md.article_ids)
  | none => (none, [])

/-- `ScopusChatbot.setup_chatbot` (chatbot_interface.py, lines 165-174):
load model, index and articles; call `st.stop()` (here `none`) exactly when
the loaded index is `None`, otherwise serve with the loaded state. -/
def setup_chatbot (stored : Option (PersistedIndex × FaissMetadata))
    (df : List Article) (encode : String → List ℚ) (qnorm : List ℚ → List ℚ) :
    Option Chatbot :=
  match load_faiss_index stored with
  | (some idx, ids) => some ⟨idx.xb, ids, df, encode, qnorm⟩
  | (none, _) => none

/-- Squared Euclidean norm of a real vector. -/
def l2normSq (v : List ℝ) : ℝ := (v.map (fun x => x * x)).sum

/-- Euclidean norm of a real vector. -/
noncomputable def l2norm (v : List ℝ) : ℝ := Real.sqrt (l2normSq v)

/-- Real-valued meaning of `faiss.normalize_L2` on one row (FAISS
`fvec_renorm_L2`): divide by the Euclidean norm, leaving a vector of norm 0
unchanged rather than dividing by zero.  Applied to every corpus vector at
build time (semantic_indexer.py line 160) and to the query vector at search
time (chatbot_interface.py line 184). -/
noncomputable def normalize_L2 (v : List ℝ) : List ℝ :=
  if l2norm v = 0 then v else v.map (fun x => x / l2norm v)

/-! ### Concrete fixtures used by closed theorems and witnesses -/

/-- A store with one article, internal id 5. -/
def mriArticle : Article :=
  { id := 5, scopus_id := "SCOPUS-5", title := some ("Deep learning for MRI"),
    abstract := none, keywords := none, subject_areas := none, year := some 2024,
    publication_name := none, citation_count := 3 }

/-- A loaded chatbot whose index holds a single one-dimensional vector. -/
def staleBot : Chatbot :=
  { xb := [[1]], article_ids := [5], articles_df := [mriArticle],
    encode := fun _ => [1], qnorm := fun v => v }

/-- A loaded chatbot with an empty index and store. -/
def emptyBot : Chatbot :=
  { xb := [], article_ids := [], articles_df := [],
    encode := fun _ => [], qnorm := fun v => v }

/-- Persisted metadata naming an embedding model other than the one the
chatbot configures. -/
def otherMeta : FaissMetadata := ⟨[], "different-embedding-model", 384⟩

/-- An empty persisted index file. -/
def persisted0 : PersistedIndex := ⟨[]⟩

/-! ### Helper lemmas -/

theorem hitRel_score {a b : WithBot ℚ × ℤ} (h : hitRel a b) : b.1 ≤ a.1 := by
  rcases h with h | ⟨h, _⟩
  · exact le_of_lt h
  · exact le_of_eq h.symm

theorem faissSearch_pairwise (xb : List (List ℚ)) (q : List ℚ) (k : ℕ) :
    List.Pairwise (fun x y : WithBot ℚ × ℤ => y.1 ≤ x.1) (faissSearch xb q k) := by
  unfold faissSearch
  rw [List.pairwise_append]
  refine ⟨?_, ?_, ?_⟩
  · exact List.Pairwise.sublist (List.take_sublist k _)
      ((List.sorted_insertionSort hitRel (scored xb q)).imp hitRel_score)
  · exact List.pairwise_replicate.mpr (Or.inr le_rfl)
  · intro x _ y hy
    rw [List.eq_of_mem_replicate hy]
    exact bot_le

theorem collect_ok_sublist (ids : List ℤ) (df : List Article) :
    ∀ hits rs, collectResults ids df hits = Except.ok rs →
      (rs.map Prod.fst).Sublist (hits.map Prod.fst)
  | [], rs, h => by
    simp only [collectResults, Except.ok.injEq] at h
    subst h
    simp
  | (s, i) :: rest, rs, h => by
    unfold collectResults at h
    split at h
    · split at h
      · cases h
      · rename_i aid hpg
        split at h
        · cases h
        · rename_i tail hr
          split at h
          · rename_i hf
            injection h with h
            subst h
            exact (collect_ok_sublist ids df rest _ hr).cons s
          · rename_i art hf
            injection h with h
            subst h
            exact (collect_ok_sublist ids df rest tail hr).cons₂ s
    · exact (collect_ok_sublist ids df rest rs h).cons s

theorem collect_error_on_empty_ids (df : List Article) (t : List (WithBot ℚ × ℤ)) :
    collectResults [] df (((⊥ : WithBot ℚ), (-1 : ℤ)) :: t) = Except.error () := by
  simp only [collectResults]
  rw [if_pos (by decide)]
  have : pythonGet ([] : List ℤ) (-1) = none := by decide
  rw [this]

theorem l2normSq_nonneg (v : List ℝ) : 0 ≤ l2normSq v := by
  unfold l2normSq
  induction v with
  | nil => simp
  | cons x t ih =>
    simp only [List.map_cons, List.sum_cons]
    exact add_nonneg (mul_self_nonneg x) ih

theorem l2normSq_map_div (v : List ℝ) (s : ℝ) :
    l2normSq (v.map (fun x => x / s)) = l2normSq v / (s * s) := by
  unfold l2normSq
  induction v with
  | nil => simp
  | cons x t ih =>
    simp only [List.map_cons, List.sum_cons] at *
    rw [ih, add_div, div_mul_div_comm]

/-! ### The claims -/

/-- Claim C1, counterexample: the claim says `build_corpus_index([])`
succeeds and produces an index of size 0.  On the code it is false:
`process_complete_indexing` on an empty record set returns `False` (`none`)
from its `len(df) == 0` guard without building any index. -/
theorem claim_C1_counterexample :
    ¬ ∃ st, process_complete_indexing (fun _ => ([] : List ℚ)) (fun v => v) [] = some st ∧
      indexSize st = 0 := by
  rintro ⟨st, h, -⟩
  cases h

/-- Claim C1, amended: building the corpus index from an empty record set is
refused — the pipeline returns failure (`False`) without constructing an
index — and a search against an empty index (size 0) returns the empty
result list without raising, for every query and every k. -/
theorem claim_C1_empty_build_amended :
    (∀ (encode : String → List ℚ) (normalize : List ℚ → List ℚ),
        process_complete_indexing encode normalize [] = none) ∧
    (∀ (df : List Article) (encode : String → List ℚ) (qnorm : List ℚ → List ℚ)
        (q : String) (k : ℕ),
        semantic_search ⟨[], [], df, encode, qnorm⟩ q k = []) := by
  constructor
  · intro encode normalize
    rfl
  · intro df encode qnorm q k
    unfold semantic_search
    split
    · rfl
    · have hfs : faissSearch [] (qnorm (encode q)) k
          = List.replicate k ((⊥ : WithBot ℚ), (-1 : ℤ)) := by
        simp [faissSearch, scored]
      show (match collectResults [] df (faissSearch [] (qnorm (encode q)) k) with
        | Except.ok rs => rs
        | Except.error _ => []) = []
      rw [hfs]
      cases k with
      | zero => rfl
      | succ n =>
        rw [List.replicate_succ, collect_error_on_empty_ids]

/-- Claim C2, counterexample: the claim says a persisted model identifier
differing from the configured one is detected and the Retriever refuses to
serve.  On the code it is false: with metadata naming a different model, the
loader returns the index and `setup_chatbot` proceeds to serve. -/
theorem claim_C2_counterexample :
    otherMeta.model_name ≠ chatbot_model_name ∧
    (setup_chatbot (some (persisted0, otherMeta)) [] (fun _ => []) (fun v => v)).isSome = true :=
  ⟨by decide, rfl⟩

/-- Claim C2, amended: the Retriever never consults the persisted metadata's
model identifier — `load_faiss_index` returns only the index and
`article_ids`, and `setup_chatbot` behaves identically for any `model_name`
(and any `dimension`) in the metadata, serving whenever the index loads; no
IndexModelMismatch condition exists in the code, the difference is silently
ignored. -/
theorem claim_C2_model_mismatch_amended (pidx : PersistedIndex) (ids : List ℤ)
    (s s' : String) (d d' : ℕ) (df : List Article) (encode : String → List ℚ)
    (qnorm : List ℚ → List ℚ) :
    setup_chatbot (some (pidx, ⟨ids, s, d⟩)) df encode qnorm
      = setup_chatbot (some (pidx, ⟨ids, s', d'⟩)) df encode qnorm ∧
    (setup_chatbot (some (pidx, ⟨ids, s, d⟩)) df encode qnorm).isSome = true :=
  ⟨rfl, rfl⟩

/-- Claim C3: the k-bound law `len(search(q, k)) <= min(k, index.size)`
fails on the code.  With an index of one vector and `k = 2`, FAISS pads the
result with position `-1`; the guard `idx < len(article_ids)` accepts `-1`,
and Python negative indexing resolves `article_ids[-1]` to the last mapped
identifier, fabricating a second hit: the call returns 2 results although
`min(k, index.size) = 1`.  The guard's evident intent (and the spec) is to
reject invalid positions, so this is a code bug, witnessed here by running
the embedded code at the failing input. -/
theorem claim_C3_kbound_violation :
    (semantic_search staleBot ("medical imaging") 2).length = 2 ∧
    ¬ ((semantic_search staleBot ("medical imaging") 2).length ≤ min 2 staleBot.xb.length) := by
  decide

/-- Claim C4: after every index build the records are enumerated in ascending
internal-identifier order, the (normalized) vectors enter the fresh index in
that same enumeration order, `article_ids[position]` is the identifier of the
record at that position, and `len(article_ids) = index.size`. -/
theorem claim_C4_build_invariants (encode : String → List ℚ)
    (normalize : List ℚ → List ℚ) (table : List Article) :
    List.Sorted articleLe (load_articles_from_database table) ∧
    (create_faiss_index normalize
        (create_embeddings encode (load_articles_from_database table))
        (load_articles_from_database table)).xb
      = (load_articles_from_database table).map
          (fun r => normalize (encode (prepare_text_for_embedding r))) ∧
    (create_faiss_index normalize
        (create_embeddings encode (load_articles_from_database table))
        (load_articles_from_database table)).article_ids
      = (load_articles_from_database table).map (fun a => a.id) ∧
    (create_faiss_index normalize
        (create_embeddings encode (load_articles_from_database table))
        (load_articles_from_database table)).article_ids.length
      = indexSize (create_faiss_index normalize
          (create_embeddings encode (load_articles_from_database table))
          (load_articles_from_database table)) := by
  refine ⟨List.sorted_insertionSort articleLe table, ?_, rfl, ?_⟩
  · simp [create_faiss_index, create_embeddings, List.map_map, Function.comp]
  · simp [create_faiss_index, create_embeddings, indexSize]

/-- Claim C5: the text compositor is a deterministic total function (it is a
pure Lean function of the record) and equals the spec-side characterisation:
the non-empty fields in the fixed order title, abstract, keywords, subject
areas, each prefixed with its label, joined by single spaces, an absent or
empty field contributing nothing. -/
theorem claim_C5_text_compositor (row : Article) :
    prepare_text_for_embedding row = composeSpec row := by
  unfold prepare_text_for_embedding composeSpec labeledField hasValue
  cases row.title <;> cases row.abstract <;> cases row.keywords <;> cases row.subject_areas <;>
    simp <;> split_ifs <;> simp_all

/-- Claim C6: for every search call the scores of the returned results are
non-increasing by rank — the retriever emits hits in the order received from
the index, whose exact search returns descending scores. -/
theorem claim_C6_ranking_invariant (bot : Chatbot) (q : String) (k : ℕ) :
    List.Pairwise (fun x y : WithBot ℚ × Article => y.1 ≤ x.1) (semantic_search bot q k) := by
  unfold semantic_search
  split
  · simp
  · cases hr : collectResults bot.article_ids bot.articles_df
        (faissSearch bot.xb (bot.qnorm (bot.encode q)) k) with
    | error e => simp
    | ok rs =>
      show List.Pairwise (fun x y : WithBot ℚ × Article => y.1 ≤ x.1) rs
      have hsub := collect_ok_sublist _ _ _ _ hr
      have hp : List.Pairwise (fun a b : WithBot ℚ => b ≤ a)
          ((faissSearch bot.xb (bot.qnorm (bot.encode q)) k).map Prod.fst) :=
        List.pairwise_map.mpr (faissSearch_pairwise _ _ _)
      exact List.pairwise_map.mp (List.Pairwise.sublist hsub hp)

/-- Claim C7: searching with an empty or whitespace-only query text returns
the empty result list, for every chatbot state and every k, without error. -/
theorem claim_C7_empty_query (bot : Chatbot) (q : String) (k : ℕ)
    (h : pyStrip q = ("")) : semantic_search bot q k = [] := by
  unfold semantic_search
  rw [if_pos h]

theorem claim_C7_empty_query_witness :
    pyStrip ("   ") = ("") ∧ semantic_search emptyBot ("   ") 5 = [] :=
  ⟨by decide, claim_C7_empty_query emptyBot ("   ") 5 (by decide)⟩

/-- Claim C8: `faiss.normalize_L2` (applied to every corpus vector at build
time, semantic_indexer.py line 160, and to the query vector at search time,
chatbot_interface.py line 184) divides a vector by its Euclidean norm, so
after normalization the norm is exactly 1 in the real-valued model — except
for the zero vector, which the library's defined fallback leaves unchanged
instead of dividing by zero. -/
theorem claim_C8_normalization (v : List ℝ) :
    (l2norm v = 0 ∧ normalize_L2 v = v) ∨ l2norm (normalize_L2 v) = 1 := by
  by_cases h : l2norm v = 0
  · exact Or.inl ⟨h, by simp [normalize_L2, h]⟩
  · right
    have hnsq : l2normSq v ≠ 0 := by
      intro h0
      apply h
      unfold l2norm
      rw [h0, Real.sqrt_zero]
    have hpos : 0 ≤ l2normSq v := l2normSq_nonneg v
    unfold normalize_L2
    rw [if_neg h]
    unfold l2norm
    rw [l2normSq_map_div]
    rw [Real.mul_self_sqrt hpos, div_self hnsq, Real.sqrt_one]

/-- Claim C9: a hit whose position resolves to a record identifier absent
from the record store is silently dropped — the remaining results (and their
order) are exactly those of the rest of the hit list, with no error. -/
theorem claim_C9_stale_drop (ids : List ℤ) (df : List Article) (s : WithBot ℚ)
    (idx : ℤ) (rest : List (WithBot ℚ × ℤ)) (aid : ℤ)
    (h0 : 0 ≤ idx) (h1 : idx < (ids.length : ℤ))
    (h2 : pythonGet ids idx = some aid)
    (h3 : df.find? (fun a => a.id == aid) = none) :
    collectResults ids df ((s, idx) :: rest) = collectResults ids df rest := by
  simp only [collectResults, if_pos h1, h2, h3]
  cases hcr : collectResults ids df rest with
  | error e => simp
  | ok tail => simp [h3]

theorem claim_C9_stale_drop_witness :
    (0 : ℤ) ≤ 0 ∧ (0 : ℤ) < ((([5] : List ℤ).length : ℤ)) ∧
    pythonGet ([5] : List ℤ) 0 = some 5 ∧
    (([] : List Article).find? (fun a => a.id == (5 : ℤ)) = none) ∧
    collectResults [5] [] [((⊥ : WithBot ℚ), (0 : ℤ))] = collectResults [5] [] [] :=
  ⟨le_refl 0, by decide, by decide, rfl,
    claim_C9_stale_drop [5] [] ⊥ 0 [] 5 (le_refl 0) (by decide) (by decide) rfl⟩

/-- Claim C10: `semantic_search` never propagates an exception: for every
query and k the caller observes either the assembled result list or the empty
list — any raise inside the `try` block (modelled by the `Except.error` path)
is absorbed into `[]` by the handler. -/
theorem claim_C10_no_exception (bot : Chatbot) (q : String) (k : ℕ) :
    semantic_search bot q k = [] ∨
    ∃ rs, collectResults bot.article_ids bot.articles_df
        (faissSearch bot.xb (bot.qnorm (bot.encode q)) k) = Except.ok rs ∧
      semantic_search bot q k = rs := by
  unfold semantic_search
  split
  · exact Or.inl rfl
  · cases hr : collectResults bot.article_ids bot.articles_df
        (faissSearch bot.xb (bot.qnorm (bot.encode q)) k) with
    | error e => exact Or.inl rfl
    | ok rs => exact Or.inr ⟨rs, rfl, rfl⟩
